import Mathlib

/-!
Formal model of the `openrouter-mcp` server core
(`src/openrouter_mcp/server.py`), as a shallow embedding in Lean.

Pure helpers of the Python module become Lean functions.  Stateful parts
(the model-list cache) are modelled by explicit state passing.  Network
I/O is abstracted by oracles: a catalog fetch outcome is a parameter of
`list_models`, and the outcome of each successive chat request is a
parameter of `chat_completion`.  Python `None` for optional string
arguments is modelled by `Option String`, and Python string truthiness
(`if s:`) by the test `s` is not `none` and not the empty string.
-/

namespace OpenRouterMCP

/-! ## Alias resolution (`resolve_model`) -/

/-- Model of Python `str.lower()` on ASCII text: map upper-case ASCII
letters to lower case and leave every other character unchanged. -/
def pyLower (s : String) : String :=
  (s.data.map fun c => if c.isUpper then Char.ofNat (c.toNat + 32) else c).asString

/-- Model of `resolve_model(model_name)`.  The alias table
(`MODEL_ALIASES`, keys already lower-cased at load time) and the default
model id (`DEFAULT_MODEL`) are passed explicitly.  Mirrors the source:
a falsy selector (absent or empty) returns the default; otherwise the
lower-cased selector is looked up in the alias table and a truthy hit is
returned; any miss falls back to the default. -/
def resolve_model (aliases : List (String × String)) (dflt : String)
    (model_name : Option String) : String :=
  match model_name with
  | none => dflt
  | some s =>
    if s = "" then dflt
    else
      match aliases.lookup (pyLower s) with
      | some m => if m = "" then dflt else m
      | none => dflt

/-! ## Validators -/

/-- Clamp of one dimension into the range used by `validate_dimensions`:
`max(MIN_DIM, min(MAX_DIM, x))` with `MAX_DIM, MIN_DIM = 2048, 128`. -/
def clampDim (x : Int) : Int := max 128 (min 2048 x)

/-- Model of `validate_dimensions(width, height)`. -/
def validate_dimensions (width height : Int) : Int × Int :=
  (clampDim width, clampDim height)

/-- Model of `sanitize_markdown(text)`: escape literal square brackets. -/
def sanitize_markdown (text : String) : String :=
  ((text.data.map fun c =>
    if c = '[' then ['\\', '[']
    else if c = ']' then ['\\', ']']
    else [c]).flatten).asString

/-! ## Percent-encoding (`urllib.parse.quote`) and `generate_image` -/

/-- UTF-8 encoding of one character, as its list of byte values. -/
def utf8Bytes (c : Char) : List Nat :=
  let n := c.toNat
  if n < 128 then [n]
  else if n < 2048 then [192 + n / 64, 128 + n % 64]
  else if n < 65536 then [224 + n / 4096, 128 + (n / 64) % 64, 128 + n % 64]
  else [240 + n / 262144, 128 + (n / 4096) % 64, 128 + (n / 64) % 64, 128 + n % 64]

/-- Bytes that `urllib.parse.quote` leaves unescaped with its default
`safe="/"`: ASCII letters, digits, `_.-~` and `/`. -/
def quoteSafeByte (b : Nat) : Bool :=
  (65 ≤ b && b ≤ 90) || (97 ≤ b && b ≤ 122) || (48 ≤ b && b ≤ 57) ||
  b = 45 || b = 46 || b = 95 || b = 126 || b = 47

/-- Upper-case hexadecimal digit for a value below 16. -/
def hexDigitChar (n : Nat) : Char :=
  if n < 10 then Char.ofNat (48 + n) else Char.ofNat (55 + n)

/-- Percent-encode a byte sequence the way `urllib.parse.quote` does. -/
def quoteBytes : List Nat → List Char
  | [] => []
  | b :: rest =>
    (if quoteSafeByte b then [Char.ofNat b]
     else ['%', hexDigitChar (b / 16), hexDigitChar (b % 16)]) ++ quoteBytes rest

/-- Model of `urllib.parse.quote(s)` (default `safe="/"`): percent-encode
the UTF-8 bytes of `s`. -/
def urlquote (s : String) : String :=
  (quoteBytes (s.data.map utf8Bytes).flatten).asString

/-- The Pollinations URL built by `generate_image` for a given prompt and
(already clamped) dimensions. -/
def pollinationsUrl (prompt : String) (width height : Int) : String :=
  "https://image.pollinations.ai/prompt/" ++ urlquote prompt ++
    "?width=" ++ toString (clampDim width) ++
    "&height=" ++ toString (clampDim height) ++ "&nologo=true"

/-- Model of the `generate_image` tool: reject an empty prompt, clamp the
dimensions, build the Pollinations URL around the percent-encoded prompt,
and return the Markdown with the fixed alt text. -/
def generate_image (prompt : String) (width height : Int) : String :=
  if prompt = "" then "Error: Prompt cannot be empty."
  else
    "![Generated Image](" ++ pollinationsUrl prompt width height ++
      ")\n\n(URL: " ++ pollinationsUrl prompt width height ++ ")"

/-! ## Python float values for catalog prices

The catalog sort key is `float(entry.pricing.prompt)` with the string
`inf` as the default for a missing price.  Prices are modelled as exact
rationals (plus the two infinities); `NaN` inputs and overflow to
infinity are not modelled, and numeric underscores are not accepted. -/

/-- Value of a successful Python `float()` call, restricted to finite
rationals and the two infinities. -/
inductive PyFloat where
  | neginf
  | finite (q : ℚ)
  | inf
deriving DecidableEq

/-- Boolean comparison of two `PyFloat` values, the order `float` keys
are sorted by. -/
def pyfle : PyFloat → PyFloat → Bool
  | .neginf, _ => true
  | .finite _, .neginf => false
  | .finite a, .finite b => decide (a ≤ b)
  | .finite _, .inf => true
  | .inf, .inf => true
  | .inf, _ => false

theorem pyfle_trans {a b c : PyFloat} (h1 : pyfle a b = true)
    (h2 : pyfle b c = true) : pyfle a c = true := by
  cases a <;> cases b <;> cases c <;> simp_all [pyfle]
  exact le_trans h1 h2

theorem pyfle_total (a b : PyFloat) : pyfle a b = true ∨ pyfle b a = true := by
  cases a <;> cases b <;> simp_all [pyfle]
  exact le_total _ _

/-- ASCII lower-casing of one character, as in `pyLower`. -/
def lowerChar (c : Char) : Char :=
  if c.isUpper then Char.ofNat (c.toNat + 32) else c

/-- Numeric value of a list of decimal digit characters. -/
def digitsVal (ds : List Char) : Nat :=
  ds.foldl (fun a c => a * 10 + (c.toNat - 48)) 0

/-- Finite `float` value from sign, integral digits, fractional digits
and decimal exponent. -/
def mkFinite (neg : Bool) (intDs fracDs : List Char) (e : Int) : PyFloat :=
  let mant : Nat := digitsVal intDs * 10 ^ fracDs.length + digitsVal fracDs
  let e10 : Int := e - fracDs.length
  let q : ℚ :=
    if 0 ≤ e10 then mkRat (mant * 10 ^ e10.toNat) 1
    else mkRat mant (10 ^ (-e10).toNat)
  .finite (if neg then -q else q)

/-- Exponent part of a `float` literal: empty, or `e`/`E`, an optional
sign and a non-empty digit group ending the string. -/
def parseExpPart (neg : Bool) (intDs fracDs rest : List Char) : Option PyFloat :=
  match rest with
  | [] => some (mkFinite neg intDs fracDs 0)
  | e :: rest2 =>
    if e = 'e' ∨ e = 'E' then
      let signedTail : Int × List Char :=
        match rest2 with
        | '+' :: r => (1, r)
        | '-' :: r => (-1, r)
        | r => (1, r)
      let eDs := signedTail.2.takeWhile Char.isDigit
      let rest3 := signedTail.2.dropWhile Char.isDigit
      if eDs = [] ∨ rest3 ≠ [] then none
      else some (mkFinite neg intDs fracDs (signedTail.1 * digitsVal eDs))
    else none

/-- Unsigned part of a `float` literal: `inf`/`infinity`, or decimal
digits with an optional fractional part and exponent. -/
def parseUnsigned (neg : Bool) (cs : List Char) : Option PyFloat :=
  let low := cs.map lowerChar
  if low = "inf".data ∨ low = "infinity".data then
    some (if neg then .neginf else .inf)
  else
    let intDs := cs.takeWhile Char.isDigit
    let rest1 := cs.dropWhile Char.isDigit
    match rest1 with
    | '.' :: rest2 =>
      let fracDs := rest2.takeWhile Char.isDigit
      let rest3 := rest2.dropWhile Char.isDigit
      if intDs = [] ∧ fracDs = [] then none
      else parseExpPart neg intDs fracDs rest3
    | _ =>
      if intDs = [] then none else parseExpPart neg intDs [] rest1

/-- Model of Python `float(s)` on the inputs relevant here: surrounding
whitespace is ignored, then an optional sign is followed by `inf`,
`infinity` or a decimal literal.  `none` models a raised `ValueError`. -/
def pyFloat (s : String) : Option PyFloat :=
  let cs := ((s.data.dropWhile Char.isWhitespace).reverse.dropWhile
    Char.isWhitespace).reverse
  match cs with
  | '+' :: rest => parseUnsigned false rest
  | '-' :: rest => parseUnsigned true rest
  | _ => parseUnsigned false cs

/-! ## Catalog entries and the `list_models` tool

A catalog entry keeps the three fields `list_models` reads: the model
id, the rendered `context_length` value and the `pricing.prompt` string
(absent field and absent key are merged, both render as `N/A` and both
price as the default string `inf`). -/

/-- One upstream catalog entry as read by `list_models`. -/
structure CatalogEntry where
  id : String
  context_length : Option String
  pricing_prompt : Option String
deriving DecidableEq

/-- Sort key of one entry: `float(m.get("pricing", dict()).get("prompt", "inf"))`.
`none` models the `ValueError` an unparsable price raises. -/
def price_key (m : CatalogEntry) : Option PyFloat :=
  pyFloat (m.pricing_prompt.getD "inf")

/-- Total sort key, defaulting to infinity (used only when every key
parses). -/
def priceKeyD (m : CatalogEntry) : PyFloat :=
  (price_key m).getD .inf

/-- The order `list_models` sorts entries by: comparison of price keys. -/
def priceRel (a b : CatalogEntry) : Prop :=
  pyfle (priceKeyD a) (priceKeyD b) = true

instance : DecidableRel priceRel := fun a b =>
  instDecidableEqBool (pyfle (priceKeyD a) (priceKeyD b)) true

instance : IsTrans CatalogEntry priceRel := ⟨fun _ _ _ => pyfle_trans⟩

instance : IsTotal CatalogEntry priceRel :=
  ⟨fun a b => pyfle_total (priceKeyD a) (priceKeyD b)⟩

/-- Substring test on character lists, modelling Python `a in b`. -/
def containsSub : List Char → List Char → Bool
  | needle, [] => needle.isEmpty
  | needle, c :: rest => needle.isPrefixOf (c :: rest) || containsSub needle rest

/-- The search filter of `list_models`: with a truthy search string, keep
the entries whose id contains it case-insensitively. -/
def filter_models (search : Option String) (models : List CatalogEntry) :
    List CatalogEntry :=
  match search with
  | none => models
  | some s =>
    if s = "" then models
    else models.filter fun m => containsSub (pyLower s).data (pyLower m.id).data

/-- Whether a search argument is truthy (so that `list_models` builds a
new filtered list instead of aliasing the cached one). -/
def searchActive : Option String → Bool
  | none => false
  | some s => s ≠ ""

/-- The in-place `models.sort(key=...)` call: CPython first computes
every key (restoring the list unchanged if a key raises, modelled by
`none`) and then sorts stably by key. -/
def sort_models (models : List CatalogEntry) : Option (List CatalogEntry) :=
  if models.all fun m => (price_key m).isSome then
    some (models.insertionSort priceRel)
  else none

/-- Clamped limit `max(1, min(100, limit))`, as a natural number. -/
def safeLimit (limit : Int) : Nat := (max 1 (min 100 limit)).toNat

/-- Join a list of strings with a separator, as `sep.join(parts)`. -/
def joinSep (sep : String) : List String → String
  | [] => ""
  | [x] => x
  | x :: rest => x ++ sep ++ joinSep sep rest

/-- The line `list_models` renders for one entry. -/
def renderEntryLine (m : CatalogEntry) : String :=
  "- " ++ m.id ++ " (Context: " ++ m.context_length.getD "N/A" ++
    ", Price: " ++ m.pricing_prompt.getD "N/A" ++ ")"

/-- The full text `list_models` renders from the already sorted entry
list: a header with the match count and the clamped limit, the alias
line when the alias table is non-empty, and one line per entry up to the
limit. -/
def render_models (aliases : List (String × String)) (safe_limit : Nat)
    (models : List CatalogEntry) : String :=
  joinSep "\n"
    (["Found " ++ toString models.length ++ " models (showing top " ++
        toString safe_limit ++ "):"] ++
      (if aliases.isEmpty then []
       else ["Aliases: " ++ joinSep ", " (aliases.map Prod.fst)]) ++
      (models.take safe_limit).map renderEntryLine)

/-- The formatting phase of `list_models` (filter, sort, render) on a
given entry list: `none` models the exception an unparsable price
raises; otherwise the output text together with the sorted list the
in-place sort produced. -/
def format_models (aliases : List (String × String)) (limit : Int)
    (search : Option String) (models : List CatalogEntry) :
    Option (String × List CatalogEntry) :=
  match sort_models (filter_models search models) with
  | none => none
  | some sorted => some (render_models aliases (safeLimit limit) sorted, sorted)

/-- Output of the formatting phase, with the generic handler text for
the exception case. -/
def fmtOutput (aliases : List (String × String)) (limit : Int)
    (search : Option String) (models : List CatalogEntry) : String :=
  match format_models aliases limit search models with
  | none => "An unexpected error occurred while fetching models."
  | some p => p.1

/-- The process-wide `model_cache` dictionary: cached entries and
expiry timestamp. -/
structure CacheState where
  models : List CatalogEntry
  expiry : ℚ
deriving DecidableEq

/-- Outcome of one upstream catalog fetch, abstracting the network:
a successful body with the `data` list, a non-2xx status
(`raise_for_status` raises `HTTPStatusError`), a 2xx body lacking the
`data` key, or any other transport error. -/
inductive FetchResult where
  | ok (entries : List CatalogEntry)
  | httpError (code : Nat)
  | noData
  | netError
deriving DecidableEq

/-- Result of one `list_models` call: the returned text, the cache state
it leaves behind, and whether it performed an upstream fetch. -/
structure LMResult where
  output : String
  state : CacheState
  fetched : Bool
deriving DecidableEq

/-- Model of the `list_models` tool.  `now` is the value of
`time.time()`, `fetch` the outcome the upstream would give if queried.
Before expiry the cached list is served (and, with no active search,
sorted in place, which writes the reordered list back to the cache);
at or after expiry the upstream is fetched, the cache replaced and the
expiry reset to `now` plus the 300 second TTL.  Fetch errors return the
corresponding handler text and leave the cache untouched. -/
def list_models (api_key : Bool) (aliases : List (String × String)) (now : ℚ)
    (fetch : FetchResult) (st : CacheState) (limit : Int)
    (search : Option String) : LMResult :=
  if ¬ api_key then ⟨"Error: OPENROUTER_API_KEY is not set.", st, false⟩
  else if now < st.expiry then
    match format_models aliases limit search st.models with
    | none => ⟨"An unexpected error occurred while fetching models.", st, false⟩
    | some (out, sorted) =>
      ⟨out, ⟨if searchActive search then st.models else sorted, st.expiry⟩, false⟩
  else
    match fetch with
    | .httpError code =>
      ⟨"API Error " ++ toString code ++ " while fetching models.", st, true⟩
    | .noData => ⟨"Error: Invalid response from OpenRouter API.", st, true⟩
    | .netError =>
      ⟨"An unexpected error occurred while fetching models.", st, true⟩
    | .ok entries =>
      match format_models aliases limit search entries with
      | none =>
        ⟨"An unexpected error occurred while fetching models.",
          ⟨entries, now + 300⟩, true⟩
      | some (out, sorted) =>
        ⟨out, ⟨if searchActive search then entries else sorted, now + 300⟩, true⟩

/-! ## Image URL validation -/

/-- The two attributes of a `urllib.parse.urlparse` result that
`validate_image_url` reads. -/
structure ParsedUrl where
  scheme : String
  hostname : Option String
deriving DecidableEq

/-- Truthiness of an optional string argument, as Python `if s:` sees
it: `None` and the empty string are falsy. -/
def pyTruthy : Option String → Bool
  | none => false
  | some s => s ≠ ""

/-- Model of `validate_image_url(url)`.  The call to
`urllib.parse.urlparse` is abstracted by the `parse` parameter, which
yields the scheme and hostname attributes of a successfully parsed URL
or `none` when parsing raises `ValueError`.  A falsy url is rejected;
then only `http` and `https` schemes are accepted; then the hosts
`localhost`, `127.0.0.1` and hosts starting with `192.168.` are
rejected. -/
def validate_image_url (parse : String → Option ParsedUrl)
    (url : Option String) : Bool :=
  match url with
  | none => false
  | some u =>
    if u = "" then false
    else
      match parse u with
      | none => false
      | some p =>
        if p.scheme ≠ "http" ∧ p.scheme ≠ "https" then false
        else if p.hostname = some "localhost" ∨ p.hostname = some "127.0.0.1"
          then false
        else
          match p.hostname with
          | some host => !("192.168.".data.isPrefixOf host.data)
          | none => true

/-! ## Auto-mode candidates and the chat completion tool

The outcome of each successive `try_chat_request` call made by one
`chat_completion` invocation is abstracted by an oracle
`req : Nat → Option String × Option String` giving the `(content,
error)` pair of the k-th request issued.  The message list built from
prompt, image and system prompt does not influence any control flow
modelled here and is not tracked. -/

/-- The fixed priority list of auto-mode alias labels. -/
def AUTO_MODEL_PRIORITY : List String :=
  ["llama-free", "deepseek-free", "gemma-free", "stepfun-free"]

/-- Model of `get_candidates_for_auto_mode(image_present)`: start from
the fixed priority list, insert `gemini` at the front when an image is
present and `gemini` is not already listed, keep the labels present in
the alias table paired with their mapped ids, and always append the
`default` candidate last. -/
def get_candidates_for_auto_mode (aliases : List (String × String))
    (dflt : String) (image_present : Bool) : List (String × String) :=
  let candidate_aliases :=
    if image_present = true ∧ "gemini" ∉ AUTO_MODEL_PRIORITY then
      "gemini" :: AUTO_MODEL_PRIORITY
    else AUTO_MODEL_PRIORITY
  (candidate_aliases.filterMap fun a => (aliases.lookup a).map fun m => (a, m)) ++
    [("default", dflt)]

/-- Python rendering of the running last error inside the final
f-string: `None` prints as the text `None`. -/
def pyStr : Option String → String
  | none => "None"
  | some s => s

/-- The auto-mode fallback loop of `chat_completion`: walk the
candidates in order, one request each; a candidate whose request
returns non-`None` content short-circuits with the tagged result; a
failed candidate's error replaces the running last error; exhaustion
reports failure with the last error. -/
def auto_loop (req : Nat → Option String × Option String) :
    Nat → Option String → List (String × String) → String
  | _, last_error, [] =>
    "All auto-models failed. Last error: " ++ pyStr last_error
  | i, _, cand :: rest =>
    match (req i).1 with
    | some content => "[Auto-selected: " ++ cand.1 ++ "]\n" ++ content
    | none => auto_loop req (i + 1) (req i).2 rest

/-- The model ids actually requested by the auto-mode fallback loop, in
order. -/
def auto_probes (req : Nat → Option String × Option String) :
    Nat → List (String × String) → List String
  | _, [] => []
  | i, cand :: rest =>
    match (req i).1 with
    | some _ => [cand.2]
    | none => cand.2 :: auto_probes req (i + 1) rest

/-- Result of one `chat_completion` call: the returned value (`none`
models Python `None`) and the model ids of the requests it issued, in
order. -/
structure ChatOutcome where
  output : Option String
  probes : List String
deriving DecidableEq

/-- Model of the `chat_completion` tool.  Validation happens before any
request: missing credential, empty prompt without image, and invalid
image URL short-circuit with an error string and an empty probe list.
A truthy model selector is resolved and tried once; otherwise the
auto-mode candidates are walked by `auto_loop`.  Note the candidate
builder receives `image_url is not None`, which is true even for an
empty-string image url. -/
def chat_completion (api_key : Bool) (aliases : List (String × String))
    (dflt : String) (parse : String → Option ParsedUrl)
    (req : Nat → Option String × Option String) (model : Option String)
    (prompt : String) (image_url : Option String) : ChatOutcome :=
  if api_key = false then ⟨some "Error: OPENROUTER_API_KEY is not set.", []⟩
  else if prompt = "" ∧ pyTruthy image_url = false then
    ⟨some "Error: Prompt cannot be empty without an image.", []⟩
  else if pyTruthy image_url = true ∧ validate_image_url parse image_url = false
    then ⟨some "Error: Invalid or disallowed image URL.", []⟩
  else if pyTruthy model = true then
    match (req 0).1 with
    | some content => ⟨some content, [resolve_model aliases dflt model]⟩
    | none => ⟨(req 0).2, [resolve_model aliases dflt model]⟩
  else
    ⟨some (auto_loop req 0 (some "No models available or all failed.")
        (get_candidates_for_auto_mode aliases dflt (image_url ≠ none))),
      auto_probes req 0 (get_candidates_for_auto_mode aliases dflt
        (image_url ≠ none))⟩

/-! ## JSON values and the stream aggregator

`try_chat_request` consumes the response body line by line, decoding
each `data: ` payload with `json.loads`.  JSON values are modelled by
the `Json` inductive (numbers keep their lexeme, which is all the
stream loop's truthiness test needs); `json.loads` by a recursive
descent parser over the character list.  Unicode escape sequences for
surrogate code points are not modelled (the parser rejects them). -/

/-- A decoded JSON value. -/
inductive Json where
  | null
  | bool (b : Bool)
  | num (lexeme : String)
  | str (s : String)
  | arr (elems : List Json)
  | obj (fields : List (String × Json))

/-- Field lookup on a parsed JSON object.  Later duplicate keys
overwrite earlier ones in a Python dict, so the last binding wins. -/
def objGet (fields : List (String × Json)) (k : String) : Option Json :=
  fields.reverse.lookup k

/-- Whether the mantissa of a JSON number lexeme is zero (its digits
before any exponent are all `0`). -/
def isZeroNum (lexeme : String) : Bool :=
  ((lexeme.data.takeWhile fun c => c ≠ 'e' ∧ c ≠ 'E').filter
    fun c => c ≠ '-').all fun c => c = '0' ∨ c = '.'

/-- Truthiness of a decoded JSON value under Python `bool()`. -/
def truthy : Json → Bool
  | .null => false
  | .bool b => b
  | .num lexeme => !isZeroNum lexeme
  | .str s => s ≠ ""
  | .arr es => !es.isEmpty
  | .obj fs => !fs.isEmpty

/-- JSON whitespace to skip between tokens. -/
def skipJsonWs (cs : List Char) : List Char :=
  cs.dropWhile fun c => c = ' ' ∨ c = '\t' ∨ c = '\n' ∨ c = '\r'

/-- Value of one hexadecimal digit character. -/
def hexVal (c : Char) : Option Nat :=
  if '0' ≤ c ∧ c ≤ '9' then some (c.toNat - 48)
  else if 'a' ≤ c ∧ c ≤ 'f' then some (c.toNat - 87)
  else if 'A' ≤ c ∧ c ≤ 'F' then some (c.toNat - 55)
  else none

/-- Body of a JSON string after the opening quote: the decoded
characters and the remaining input after the closing quote. -/
def parseJsonStringChars : List Char → Option (List Char × List Char)
  | [] => none
  | c :: rest =>
    if c = '"' then some ([], rest)
    else if c = '\\' then
      match rest with
      | [] => none
      | e :: rest2 =>
        let simpleEsc : Option Char :=
          if e = '"' then some '"'
          else if e = '\\' then some '\\'
          else if e = '/' then some '/'
          else if e = 'b' then some (Char.ofNat 8)
          else if e = 'f' then some (Char.ofNat 12)
          else if e = 'n' then some '\n'
          else if e = 'r' then some '\r'
          else if e = 't' then some '\t'
          else none
        match simpleEsc with
        | some ch =>
          match parseJsonStringChars rest2 with
          | some (cs2, rest3) => some (ch :: cs2, rest3)
          | none => none
        | none =>
          if e = 'u' then
            match rest2 with
            | h1 :: h2 :: h3 :: h4 :: rest3 =>
              match hexVal h1, hexVal h2, hexVal h3, hexVal h4 with
              | some a, some b, some c2, some d =>
                let n := ((a * 16 + b) * 16 + c2) * 16 + d
                if 55296 ≤ n ∧ n ≤ 57343 then none
                else
                  match parseJsonStringChars rest3 with
                  | some (cs2, rest4) => some (Char.ofNat n :: cs2, rest4)
                  | none => none
              | _, _, _, _ => none
            | _ => none
          else none
    else if c.toNat < 32 then none
    else
      match parseJsonStringChars rest with
      | some (cs2, rest2) => some (c :: cs2, rest2)
      | none => none

/-- A JSON number token, kept as its lexeme. -/
def parseJsonNumber (cs : List Char) : Option (Json × List Char) :=
  let signAndRest : List Char × List Char :=
    match cs with
    | '-' :: rest => (['-'], rest)
    | _ => ([], cs)
  let sign := signAndRest.1
  let cs1 := signAndRest.2
  let intDs := cs1.takeWhile Char.isDigit
  let rest1 := cs1.dropWhile Char.isDigit
  if intDs = [] then none
  else if 1 < intDs.length ∧ intDs.head? = some '0' then none
  else
    let fracAndRest : List Char × List Char :=
      match rest1 with
      | '.' :: r =>
        if r.takeWhile Char.isDigit = [] then ([], '.' :: r)
        else ('.' :: r.takeWhile Char.isDigit, r.dropWhile Char.isDigit)
      | _ => ([], rest1)
    if rest1.head? = some '.' ∧ fracAndRest.1 = [] then none
    else
      let fracPart := fracAndRest.1
      let rest2 := fracAndRest.2
      match rest2 with
      | c :: r2 =>
        if c = 'e' ∨ c = 'E' then
          let signE : List Char × List Char :=
            match r2 with
            | '+' :: r => (['+'], r)
            | '-' :: r => (['-'], r)
            | r => ([], r)
          let eDs := signE.2.takeWhile Char.isDigit
          let r4 := signE.2.dropWhile Char.isDigit
          if eDs = [] then none
          else
            some (.num (sign ++ intDs ++ fracPart ++ c :: (signE.1 ++ eDs)).asString,
              r4)
        else some (.num (sign ++ intDs ++ fracPart).asString, rest2)
      | [] => some (.num (sign ++ intDs ++ fracPart).asString, [])

mutual

/-- Recursive descent JSON value parser with explicit fuel. -/
def parseJsonValue : Nat → List Char → Option (Json × List Char)
  | 0, _ => none
  | fuel + 1, cs =>
    match skipJsonWs cs with
    | 'n' :: 'u' :: 'l' :: 'l' :: rest => some (.null, rest)
    | 't' :: 'r' :: 'u' :: 'e' :: rest => some (.bool true, rest)
    | 'f' :: 'a' :: 'l' :: 's' :: 'e' :: rest => some (.bool false, rest)
    | '"' :: rest =>
      match parseJsonStringChars rest with
      | some (s, rest2) => some (.str s.asString, rest2)
      | none => none
    | '[' :: rest =>
      match skipJsonWs rest with
      | ']' :: rest2 => some (.arr [], rest2)
      | rest2 =>
        match parseJsonElems fuel rest2 with
        | some (vs, rest3) => some (.arr vs, rest3)
        | none => none
    | '{' :: rest =>
      match skipJsonWs rest with
      | '}' :: rest2 => some (.obj [], rest2)
      | rest2 =>
        match parseJsonMembers fuel rest2 with
        | some (ms, rest3) => some (.obj ms, rest3)
        | none => none
    | rest => parseJsonNumber rest

/-- One or more comma-separated array elements up to the closing
bracket. -/
def parseJsonElems : Nat → List Char → Option (List Json × List Char)
  | 0, _ => none
  | fuel + 1, cs =>
    match parseJsonValue fuel cs with
    | none => none
    | some (v, rest) =>
      match skipJsonWs rest with
      | ',' :: rest2 =>
        match parseJsonElems fuel rest2 with
        | some (vs, rest3) => some (v :: vs, rest3)
        | none => none
      | ']' :: rest2 => some ([v], rest2)
      | _ => none

/-- One or more comma-separated object members up to the closing
brace. -/
def parseJsonMembers : Nat → List Char →
    Option (List (String × Json) × List Char)
  | 0, _ => none
  | fuel + 1, cs =>
    match skipJsonWs cs with
    | '"' :: rest =>
      match parseJsonStringChars rest with
      | none => none
      | some (k, rest2) =>
        match skipJsonWs rest2 with
        | ':' :: rest3 =>
          match parseJsonValue fuel rest3 with
          | none => none
          | some (v, rest4) =>
            match skipJsonWs rest4 with
            | ',' :: rest5 =>
              match parseJsonMembers fuel rest5 with
              | some (ms, rest6) => some ((k.asString, v) :: ms, rest6)
              | none => none
            | '}' :: rest5 => some ([(k.asString, v)], rest5)
            | _ => none
        | _ => none
    | _ => none

end

/-- Model of `json.loads` on one stream payload: parse one value and
require only whitespace to remain. -/
def json_loads (cs : List Char) : Option Json :=
  match parseJsonValue (2 * cs.length + 2) cs with
  | some (j, rest) => if (skipJsonWs rest).isEmpty then some j else none
  | none => none

/-- The content-or-reasoning choice from the delta object's fields:
`delta.get("content") or delta.get("reasoning")`. -/
def delta_field (df : List (String × Json)) : Option Json :=
  match objGet df "content" with
  | some v => if truthy v then some v else objGet df "reasoning"
  | none => objGet df "reasoning"

/-- Outcome of `chunk.get("choices", [dict()])[0].get("delta", dict())`
followed by the content-or-reasoning choice, with Python's
dynamic-typing failures explicit: `skip` is an `IndexError` (caught by
the loop and skipped), `pyerr` an uncaught exception aborting the
request, `value v` the chosen value (possibly `None`). -/
inductive DeltaOutcome where
  | skip
  | pyerr
  | value (v : Option Json)

/-- Evaluate the chunk access path of the stream loop on one decoded
chunk. -/
def extract_delta (chunk : Json) : DeltaOutcome :=
  match chunk with
  | .obj fields =>
    match (objGet fields "choices").getD (.arr [.obj []]) with
    | .arr [] => .skip
    | .arr (c :: _) =>
      match c with
      | .obj cf =>
        match (objGet cf "delta").getD (.obj []) with
        | .obj df => .value (delta_field df)
        | _ => .pyerr
      | _ => .pyerr
    | .str s => if s = "" then .skip else .pyerr
    | _ => .pyerr
  | .arr _ => .pyerr
  | .str _ => .pyerr
  | .num _ => .pyerr
  | .bool _ => .pyerr
  | .null => .pyerr

/-- The line-consumption loop of `try_chat_request`: lines without the
`data: ` marker are ignored, the `[DONE]` sentinel ends consumption
keeping the accumulator, undecodable payloads and `IndexError` chunks
are skipped, truthy contributions are appended in order, and a
dynamic-typing error (`none`) aborts the request. -/
def stream_lines (acc : List Json) : List (List Char) → Option (List Json)
  | [] => some acc
  | l :: rest =>
    if "data: ".data.isPrefixOf l then
      let payload := l.drop 6
      if payload = "[DONE]".data then some acc
      else
        match json_loads payload with
        | none => stream_lines acc rest
        | some chunk =>
          match extract_delta chunk with
          | .skip => stream_lines acc rest
          | .pyerr => none
          | .value none => stream_lines acc rest
          | .value (some v) =>
            if truthy v then stream_lines (acc ++ [v]) rest
            else stream_lines acc rest
    else stream_lines acc rest

/-- The final `"".join(full_response)`: succeeds only when every
accumulated element is a string (a truthy non-string contribution makes
`join` raise `TypeError`). -/
def join_response : List Json → Option String
  | [] => some ""
  | .str s :: rest =>
    match join_response rest with
    | some t => some (s ++ t)
    | none => none
  | _ => none

/-- The streaming aggregation performed by `try_chat_request` on the
lines of a 200 response: `none` models an uncaught exception (the
generic error path), `some text` the successful exact concatenation. -/
def aggregate_stream (lines : List String) : Option String :=
  match stream_lines [] (lines.map String.data) with
  | none => none
  | some acc => join_response acc

/-- Model of `try_chat_request` given the response status and body
lines: a non-200 status fails with the status error, a stream-level
exception with the generic error, and otherwise the aggregated text is
returned as content. -/
def try_chat_request (status : Nat) (lines : List String) :
    Option String × Option String :=
  if status ≠ 200 then (none, some ("API Error " ++ toString status ++ "."))
  else
    match aggregate_stream lines with
    | some s => (some s, none)
    | none => (none, some "An unexpected error occurred.")

end OpenRouterMCP

namespace OpenRouterMCP

/-! ## Claim C1: alias resolution -/

/-- C1, counterexample.  The claim states that a non-empty selector that
is not a key of the alias table is returned unchanged.  The code instead
falls back to the configured default model id: with an empty alias table,
resolving the literal id `openai/gpt-4o` yields the default, not the
selector. -/
theorem resolve_model_unknown_not_passthrough :
    resolve_model [] "google/gemini-2.0-flash-lite-001" (some "openai/gpt-4o")
      ≠ "openai/gpt-4o" := by
  decide

/-- C1, amended.  Resolution of an empty or absent selector returns the
configured default model id; a selector whose lower-casing is a key of the
alias table (with a non-empty mapped id) returns the mapped id; and a
non-empty selector not found in the table returns the configured default
model id (fallback), not the selector itself. -/
theorem resolve_model_characterization
    (aliases : List (String × String)) (dflt : String) (sel : Option String) :
    (sel = none → resolve_model aliases dflt sel = dflt) ∧
    (sel = some "" → resolve_model aliases dflt sel = dflt) ∧
    (∀ s m, sel = some s → s ≠ "" → aliases.lookup (pyLower s) = some m →
      m ≠ "" → resolve_model aliases dflt sel = m) ∧
    (∀ s, sel = some s → s ≠ "" → aliases.lookup (pyLower s) = none →
      resolve_model aliases dflt sel = dflt) := by
  refine ⟨fun h => by subst h; rfl, fun h => by subst h; rfl, ?_, ?_⟩
  · intro s m hsel hs hlook hm
    subst hsel
    simp [resolve_model, hs, hlook, hm]
  · intro s hsel hs hlook
    subst hsel
    simp [resolve_model, hs, hlook]

/-- C1, witness for the amended theorem: on the alias table of the test
suite, the alias `DEEPSEEK-FREE` resolves case-insensitively to its
mapped id, and the unknown selector `unknown-alias` resolves to the
default. -/
theorem resolve_model_characterization_witness :
    resolve_model
      [("llama-free", "meta-llama/llama-3-8b:free"),
       ("deepseek-free", "deepseek/deepseek-coder-v2-lite"),
       ("gemini", "google/gemini-pro-vision")]
      "test/default-model" (some "DEEPSEEK-FREE") = "deepseek/deepseek-coder-v2-lite" ∧
    resolve_model
      [("llama-free", "meta-llama/llama-3-8b:free"),
       ("deepseek-free", "deepseek/deepseek-coder-v2-lite"),
       ("gemini", "google/gemini-pro-vision")]
      "test/default-model" (some "unknown-alias") = "test/default-model" := by
  constructor
  · exact (resolve_model_characterization _ _ _).2.2.1 "DEEPSEEK-FREE"
      "deepseek/deepseek-coder-v2-lite" rfl (by decide) (by decide) (by decide)
  · exact (resolve_model_characterization _ _ _).2.2.2 "unknown-alias"
      rfl (by decide) (by decide)

/-! ## Helper lemmas about `list_models` -/

theorem searchActive_false_filter {search : Option String}
    (h : searchActive search = false) (models : List CatalogEntry) :
    filter_models search models = models := by
  cases search with
  | none => rfl
  | some s =>
    have hs : s = "" := by simpa [searchActive] using h
    simp [filter_models, hs]

theorem format_models_eq_some {aliases : List (String × String)} {limit : Int}
    {search : Option String} {models : List CatalogEntry}
    {out : String} {sorted : List CatalogEntry}
    (h : format_models aliases limit search models = some (out, sorted)) :
    sorted = (filter_models search models).insertionSort priceRel ∧
    out = render_models aliases (safeLimit limit) sorted := by
  unfold format_models sort_models at h
  by_cases hall : (filter_models search models).all fun m => (price_key m).isSome
  · simp only [hall, if_true, Option.some.injEq, Prod.mk.injEq] at h
    exact ⟨h.2.symm, by rw [← h.1, ← h.2]⟩
  · simp [hall] at h

theorem format_models_perm {aliases : List (String × String)} {limit : Int}
    {search : Option String} {models : List CatalogEntry}
    {out : String} {sorted : List CatalogEntry}
    (h : format_models aliases limit search models = some (out, sorted)) :
    sorted.Perm (filter_models search models) := by
  rw [(format_models_eq_some h).1]
  exact List.perm_insertionSort _ _

/-- Behavior of `list_models` on a cache hit (`now` strictly before
expiry): no fetch, unchanged expiry, cached entries preserved up to
order, output computed from the cached entries. -/
theorem list_models_hit (aliases : List (String × String)) (now : ℚ)
    (fetch : FetchResult) (st : CacheState) (limit : Int)
    (search : Option String) (h : now < st.expiry) :
    (list_models true aliases now fetch st limit search).fetched = false ∧
    (list_models true aliases now fetch st limit search).state.expiry = st.expiry ∧
    (list_models true aliases now fetch st limit search).state.models.Perm st.models ∧
    (list_models true aliases now fetch st limit search).output =
      fmtOutput aliases limit search st.models := by
  unfold list_models
  rw [if_neg (by simp), if_pos h]
  cases hf : format_models aliases limit search st.models with
  | none => simp [fmtOutput, hf]
  | some p =>
    obtain ⟨out, sorted⟩ := p
    have hperm := format_models_perm hf
    cases hsa : searchActive search with
    | false =>
      rw [searchActive_false_filter hsa] at hperm
      simp [fmtOutput, hf, hsa, hperm]
    | true => simp [fmtOutput, hf, hsa]

/-- Behavior of `list_models` on a cache miss with a successful fetch:
one fetch, expiry reset to `now + 300`, cache replaced by the fresh
entries (up to the in-place sort), output computed from the fresh
entries. -/
theorem list_models_fetch_ok (aliases : List (String × String)) (now : ℚ)
    (st : CacheState) (limit : Int) (search : Option String)
    (entries : List CatalogEntry) (h : ¬ now < st.expiry) :
    (list_models true aliases now (.ok entries) st limit search).fetched = true ∧
    (list_models true aliases now (.ok entries) st limit search).state.expiry =
      now + 300 ∧
    (list_models true aliases now (.ok entries) st limit search).state.models.Perm
      entries ∧
    (list_models true aliases now (.ok entries) st limit search).output =
      fmtOutput aliases limit search entries := by
  unfold list_models
  rw [if_neg (by simp), if_neg h]
  cases hf : format_models aliases limit search entries with
  | none => simp [fmtOutput, hf]
  | some p =>
    obtain ⟨out, sorted⟩ := p
    have hperm := format_models_perm hf
    cases hsa : searchActive search with
    | false =>
      rw [searchActive_false_filter hsa] at hperm
      simp [fmtOutput, hf, hsa, hperm]
    | true => simp [fmtOutput, hf, hsa]

/-! ## Helper lemmas about the auto-mode fallback loop -/

theorem auto_step_fail (req : Nat → Option String × Option String) (i : Nat)
    (le : Option String) (cand : String × String)
    (rest : List (String × String)) (h : (req i).1 = none) :
    auto_loop req i le (cand :: rest) = auto_loop req (i + 1) (req i).2 rest ∧
    auto_probes req i (cand :: rest) = cand.2 :: auto_probes req (i + 1) rest := by
  constructor <;> simp [auto_loop, auto_probes, h]

theorem auto_step_success (req : Nat → Option String × Option String) (i : Nat)
    (le : Option String) (cand : String × String)
    (rest : List (String × String)) (c : String) (h : (req i).1 = some c) :
    auto_loop req i le (cand :: rest) =
      "[Auto-selected: " ++ cand.1 ++ "]\n" ++ c ∧
    auto_probes req i (cand :: rest) = [cand.2] := by
  constructor <;> simp [auto_loop, auto_probes, h]

theorem auto_success_at (req : Nat → Option String × Option String) :
    ∀ (cands : List (String × String)) (k i : Nat) (le : Option String)
      (c : String),
    (∀ j, j < k → (req (i + j)).1 = none) → (req (i + k)).1 = some c →
    ∀ cand, cands[k]? = some cand →
    auto_loop req i le cands = "[Auto-selected: " ++ cand.1 ++ "]\n" ++ c ∧
    auto_probes req i cands = (cands.take (k + 1)).map Prod.snd := by
  intro cands
  induction cands with
  | nil =>
    intro k i le c _ _ cand hk
    simp at hk
  | cons hd tl ih =>
    intro k i le c hfail hsucc cand hk
    cases k with
    | zero =>
      rw [Nat.add_zero] at hsucc
      simp only [List.getElem?_cons_zero, Option.some.injEq] at hk
      subst hk
      obtain ⟨h1, h2⟩ := auto_step_success req i le hd tl c hsucc
      exact ⟨h1, by simp [h2]⟩
    | succ k' =>
      have h0 : (req i).1 = none := by simpa using hfail 0 (Nat.succ_pos k')
      obtain ⟨h1, h2⟩ := auto_step_fail req i le hd tl h0
      have hk' : tl[k']? = some cand := by simpa using hk
      have hfail' : ∀ j, j < k' → (req (i + 1 + j)).1 = none := by
        intro j hj
        have hnext := hfail (j + 1) (by omega)
        rwa [show i + 1 + j = i + (j + 1) by omega]
      have hsucc' : (req (i + 1 + k')).1 = some c := by
        rwa [show i + 1 + k' = i + (k' + 1) by omega]
      obtain ⟨ih1, ih2⟩ := ih k' (i + 1) (req i).2 c hfail' hsucc' cand hk'
      refine ⟨h1.trans ih1, ?_⟩
      rw [h2, ih2]
      simp

theorem auto_all_fail (req : Nat → Option String × Option String) :
    ∀ (cands : List (String × String)) (i : Nat) (le : Option String),
    (∀ j, j < cands.length → (req (i + j)).1 = none) →
    auto_probes req i cands = cands.map Prod.snd ∧
    (cands ≠ [] →
      auto_loop req i le cands =
        "All auto-models failed. Last error: " ++
          pyStr ((req (i + cands.length - 1)).2)) := by
  intro cands
  induction cands with
  | nil =>
    intro i le _
    exact ⟨rfl, fun hne => absurd rfl hne⟩
  | cons hd tl ih =>
    intro i le h
    have h0 : (req i).1 = none := by simpa using h 0 (by simp)
    obtain ⟨h1, h2⟩ := auto_step_fail req i le hd tl h0
    have h' : ∀ j, j < tl.length → (req (i + 1 + j)).1 = none := by
      intro j hj
      have hnext := h (j + 1) (by simp only [List.length_cons]; omega)
      rwa [show i + 1 + j = i + (j + 1) by omega]
    obtain ⟨ih1, ih2⟩ := ih (i + 1) (req i).2 h'
    refine ⟨by rw [h2, ih1]; rfl, fun _ => ?_⟩
    rw [h1]
    cases tl with
    | nil =>
      have harith : i + (hd :: ([] : List (String × String))).length - 1 = i := by
        simp
      rw [harith]
      simp [auto_loop]
    | cons x xs =>
      rw [ih2 (by simp)]
      have harith : i + 1 + (x :: xs).length - 1 = i + (hd :: x :: xs).length - 1 := by
        simp only [List.length_cons]
        omega
      rw [harith]

/-! ## Claim C5: cache TTL discipline -/

/-- C5.  A read strictly before the cache expiry serves the cached
entries and performs no fetch; a read at or after expiry performs
exactly one fetch, replaces the cached entries with the fresh ones (the
in-place sort may reorder them) and resets the expiry to `now + 300`;
consequently, after a fetching read, any second read less than 300
seconds later performs no fetch, so the two reads cause exactly one
fetch. -/
theorem list_models_cache_ttl (aliases : List (String × String)) (now : ℚ)
    (fetch : FetchResult) (st : CacheState) (limit : Int)
    (search : Option String) :
    (now < st.expiry →
      (list_models true aliases now fetch st limit search).fetched = false ∧
      (list_models true aliases now fetch st limit search).state.expiry =
        st.expiry ∧
      (list_models true aliases now fetch st limit search).output =
        fmtOutput aliases limit search st.models) ∧
    (∀ entries, ¬ now < st.expiry → fetch = .ok entries →
      (list_models true aliases now fetch st limit search).fetched = true ∧
      (list_models true aliases now fetch st limit search).state.expiry =
        now + 300 ∧
      (list_models true aliases now fetch st limit search).state.models.Perm
        entries ∧
      (list_models true aliases now fetch st limit search).output =
        fmtOutput aliases limit search entries) ∧
    (∀ entries now2 fetch2 st2 limit2 search2 aliases2,
      ¬ now < st.expiry → fetch = .ok entries →
      st2 = (list_models true aliases now fetch st limit search).state →
      now2 < now + 300 →
      (list_models true aliases now fetch st limit search).fetched = true ∧
      (list_models true aliases2 now2 fetch2 st2 limit2 search2).fetched =
        false) := by
  refine ⟨fun h => ?_, fun entries h hf => ?_,
    fun entries now2 fetch2 st2 limit2 search2 aliases2 h hf hst hlt => ?_⟩
  · obtain ⟨h1, h2, _, h4⟩ := list_models_hit aliases now fetch st limit search h
    exact ⟨h1, h2, h4⟩
  · subst hf
    exact list_models_fetch_ok aliases now st limit search entries h
  · subst hf
    obtain ⟨h1, h2, _, _⟩ :=
      list_models_fetch_ok aliases now st limit search entries h
    refine ⟨h1, ?_⟩
    have hexp : now2 < st2.expiry := by
      rw [hst, h2]
      exact hlt
    exact (list_models_hit aliases2 now2 fetch2 st2 limit2 search2 hexp).1

/-- C5, witness: with an expired empty cache, a read at time 1 fetches,
and a read at time 100 on the resulting cache does not fetch. -/
theorem list_models_cache_ttl_witness :
    (list_models true [] 1 (.ok [⟨"m", none, some "0"⟩]) ⟨[], 0⟩ 10
      none).fetched = true ∧
    (list_models true [] 100 .netError
      (list_models true [] 1 (.ok [⟨"m", none, some "0"⟩]) ⟨[], 0⟩ 10
        none).state 10 none).fetched = false :=
  (list_models_cache_ttl [] 1 (.ok [⟨"m", none, some "0"⟩]) ⟨[], 0⟩ 10
      none).2.2 [⟨"m", none, some "0"⟩] 100 .netError _ 10 none []
    (by norm_num) rfl rfl (by norm_num)

/-! ## Claim C6: fetch failure handling -/

/-- C6, counterexample.  The claim states that a fetch error is surfaced
to the caller only when no stale cache exists.  The code never serves
stale entries: with a non-empty expired cache and a failing fetch, the
call returns the generic error text, not a rendering of the stale
entries. -/
theorem list_models_error_despite_stale :
    (list_models true [] 1 .netError ⟨[⟨"m1", none, some "0"⟩], 0⟩ 10
      none).output = "An unexpected error occurred while fetching models." ∧
    [(⟨"m1", none, some "0"⟩ : CatalogEntry)] ≠ [] ∧
    (list_models true [] 1 .netError ⟨[⟨"m1", none, some "0"⟩], 0⟩ 10
      none).output ≠ fmtOutput [] 10 none [⟨"m1", none, some "0"⟩] :=
  ⟨by decide, by decide, by decide⟩

/-- C6, amended.  When a read at or after expiry hits a fetch failure
(non-2xx status, network error, or a body lacking the `data` key), the
cached entries and the expiry are left completely unchanged (stale on
error, no expiry reset), one fetch was attempted, and the error text is
returned to the caller unconditionally — stale entries are never served
once the cache has expired. -/
theorem list_models_fetch_error_frame (aliases : List (String × String))
    (now : ℚ) (fetch : FetchResult) (st : CacheState) (limit : Int)
    (search : Option String) (h : ¬ now < st.expiry) :
    (∀ code, fetch = .httpError code →
      list_models true aliases now fetch st limit search =
        ⟨"API Error " ++ toString code ++ " while fetching models.", st, true⟩) ∧
    (fetch = .noData →
      list_models true aliases now fetch st limit search =
        ⟨"Error: Invalid response from OpenRouter API.", st, true⟩) ∧
    (fetch = .netError →
      list_models true aliases now fetch st limit search =
        ⟨"An unexpected error occurred while fetching models.", st, true⟩) := by
  refine ⟨fun code hf => ?_, fun hf => ?_, fun hf => ?_⟩ <;> subst hf <;>
    (unfold list_models; rw [if_neg (by simp), if_neg h])

/-- C6, witness: a read with an expired, non-empty cache and a malformed
body returns the invalid-response error and leaves the cache as it
was. -/
theorem list_models_fetch_error_frame_witness :
    list_models true [] 1 .noData ⟨[⟨"m1", none, some "0"⟩], 0⟩ 10 none =
      ⟨"Error: Invalid response from OpenRouter API.",
        ⟨[⟨"m1", none, some "0"⟩], 0⟩, true⟩ :=
  (list_models_fetch_error_frame [] 1 .noData ⟨[⟨"m1", none, some "0"⟩], 0⟩
    10 none (by norm_num)).2.1 rfl

/-! ## Claim C7: price sorting in the catalog listing -/

/-- C7, counterexample.  The claim states that an unparsable price sorts
as largest.  In the code, `float` raises on an unparsable price and the
whole call returns the generic error text instead of a listing with the
unparsable entry last. -/
theorem list_models_unparsable_price_error :
    (list_models true [] 1
      (.ok [⟨"bad", none, some "abc"⟩, ⟨"b", none, some "0"⟩]) ⟨[], 0⟩ 10
      none).output = "An unexpected error occurred while fetching models." ∧
    (list_models true [] 1
      (.ok [⟨"bad", none, some "abc"⟩, ⟨"b", none, some "0"⟩]) ⟨[], 0⟩ 10
      none).output ≠
      render_models [] (safeLimit 10)
        [⟨"b", none, some "0"⟩, ⟨"bad", none, some "abc"⟩] :=
  ⟨by decide, by decide⟩

/-- C7, amended.  When every (filtered) entry has a parsable price, the
rendered entries are a permutation of the filtered entries sorted
ascending by prompt price and truncated to the clamped limit; a missing
price is keyed as infinity, which is largest in the key order (sorting
last); an entry with an unparsable price instead makes the whole call
return the generic error text.  In particular a prompt price of `0`
lists before `0.2`. -/
theorem list_models_price_sort (aliases : List (String × String))
    (limit : Int) (search : Option String) (models : List CatalogEntry)
    (h : (filter_models search models).all fun m => (price_key m).isSome) :
    (∃ sorted, sort_models (filter_models search models) = some sorted ∧
      sorted.Perm (filter_models search models) ∧
      List.Sorted priceRel sorted ∧
      fmtOutput aliases limit search models =
        joinSep "\n"
          (["Found " ++ toString sorted.length ++ " models (showing top " ++
              toString (safeLimit limit) ++ "):"] ++
            (if aliases.isEmpty then []
             else ["Aliases: " ++ joinSep ", " (aliases.map Prod.fst)]) ++
            (sorted.take (safeLimit limit)).map renderEntryLine)) ∧
    (∀ m : CatalogEntry, m.pricing_prompt = none → priceKeyD m = .inf) ∧
    (∀ k, pyfle k .inf = true) ∧
    (list_models true [] 1
      (.ok [⟨"a", none, some "0.2"⟩, ⟨"b", none, some "0"⟩]) ⟨[], 0⟩ 10
      none).output =
      "Found 2 models (showing top 10):\n- b (Context: N/A, Price: 0)\n- a (Context: N/A, Price: 0.2)" := by
  refine ⟨?_, fun m hm => ?_, fun k => ?_, by decide⟩
  · refine ⟨(filter_models search models).insertionSort priceRel, ?_,
      List.perm_insertionSort _ _, List.sorted_insertionSort _ _, ?_⟩
    · unfold sort_models
      rw [if_pos h]
    · unfold fmtOutput format_models sort_models
      rw [if_pos h]
      rfl
  · simp [priceKeyD, price_key, hm]
    rfl
  · cases k <;> rfl

/-- C7, witness: with a two-entry catalog (prices `0.2` and `0`), the
sort produces the `0`-priced entry first and the claimed rendering. -/
theorem list_models_price_sort_witness :
    ∃ sorted,
      sort_models (filter_models none
        [⟨"a", none, some "0.2"⟩, ⟨"b", none, some "0"⟩]) = some sorted ∧
      sorted.Perm (filter_models none
        [⟨"a", none, some "0.2"⟩, ⟨"b", none, some "0"⟩]) ∧
      List.Sorted priceRel sorted ∧
      fmtOutput [] 10 none [⟨"a", none, some "0.2"⟩, ⟨"b", none, some "0"⟩] =
        joinSep "\n"
          (["Found " ++ toString sorted.length ++ " models (showing top " ++
              toString (safeLimit 10) ++ "):"] ++
            (if List.isEmpty ([] : List (String × String)) then []
             else ["Aliases: " ++
                joinSep ", " (([] : List (String × String)).map Prod.fst)]) ++
            (sorted.take (safeLimit 10)).map renderEntryLine) :=
  (list_models_price_sort [] 10 none
    [⟨"a", none, some "0.2"⟩, ⟨"b", none, some "0"⟩] (by decide)).1

/-! ## Claim C8: the formatting phase and the cache -/

/-- C8, counterexample.  The claim states that formatting leaves the
cached entries in the same order.  On a cache hit with no search term,
the in-place sort reorders the cached list: with cached entries priced
`0.2` then `0`, the cache afterwards holds them in swapped order. -/
theorem list_models_cache_mutation :
    (list_models true [] 5 .netError
      ⟨[⟨"a", none, some "0.2"⟩, ⟨"b", none, some "0"⟩], 10⟩ 10
      none).state.models ≠
      [⟨"a", none, some "0.2"⟩, ⟨"b", none, some "0"⟩] := by
  decide

/-- C8, amended.  On a cache hit, formatting never changes the expiry
and never changes which entries the cache holds (the new cache list is a
permutation of the old); with an active search term the cached list is
completely untouched; but with no active search term the in-place sort
writes the price-sorted reordering of the cached entries back to the
cache; and when the sort raises on an unparsable price the whole cache
state is left unchanged. -/
theorem list_models_format_frame (aliases : List (String × String)) (now : ℚ)
    (fetch : FetchResult) (st : CacheState) (limit : Int)
    (search : Option String) (h : now < st.expiry) :
    (list_models true aliases now fetch st limit search).state.expiry =
      st.expiry ∧
    (list_models true aliases now fetch st limit search).state.models.Perm
      st.models ∧
    (searchActive search = true →
      (list_models true aliases now fetch st limit search).state.models =
        st.models) ∧
    (searchActive search = false →
      ∀ sorted, sort_models st.models = some sorted →
        (list_models true aliases now fetch st limit search).state.models =
          sorted) ∧
    (sort_models (filter_models search st.models) = none →
      (list_models true aliases now fetch st limit search).state = st) := by
  obtain ⟨_, h2, h3, _⟩ := list_models_hit aliases now fetch st limit search h
  refine ⟨h2, h3, fun hsa => ?_, fun hsa sorted hs => ?_, fun hs => ?_⟩
  · unfold list_models
    rw [if_neg (by simp), if_pos h]
    cases hf : format_models aliases limit search st.models with
    | none => rfl
    | some p =>
      obtain ⟨o, s2⟩ := p
      simp [hsa]
  · unfold list_models
    rw [if_neg (by simp), if_pos h]
    have hfe : format_models aliases limit search st.models =
        some (render_models aliases (safeLimit limit) sorted, sorted) := by
      unfold format_models
      rw [searchActive_false_filter hsa, hs]
    rw [hfe]
    simp [hsa]
  · unfold list_models
    rw [if_neg (by simp), if_pos h]
    have hfe : format_models aliases limit search st.models = none := by
      unfold format_models
      rw [hs]
    rw [hfe]

/-- C8, witness: on a concrete cache hit with no search term, the cache
afterwards holds the price-sorted reordering of its entries. -/
theorem list_models_format_frame_witness :
    (list_models true [] 5 .netError
      ⟨[⟨"a", none, some "0.2"⟩, ⟨"b", none, some "0"⟩], 10⟩ 10
      none).state.models =
      [⟨"b", none, some "0"⟩, ⟨"a", none, some "0.2"⟩] :=
  (list_models_format_frame [] 5 .netError
    ⟨[⟨"a", none, some "0.2"⟩, ⟨"b", none, some "0"⟩], 10⟩ 10 none
    (by norm_num)).2.2.2.1 rfl
    [⟨"b", none, some "0"⟩, ⟨"a", none, some "0.2"⟩] (by decide)

/-! ## Helper lemma for the stream loop -/

theorem stream_step_data (acc : List Json) (payload : List Char)
    (rest : List (List Char)) :
    stream_lines acc (("data: ".data ++ payload) :: rest) =
      if payload = "[DONE]".data then some acc
      else
        match json_loads payload with
        | none => stream_lines acc rest
        | some chunk =>
          match extract_delta chunk with
          | .skip => stream_lines acc rest
          | .pyerr => none
          | .value none => stream_lines acc rest
          | .value (some v) =>
            if truthy v then stream_lines (acc ++ [v]) rest
            else stream_lines acc rest := by
  have hpre : "data: ".data.isPrefixOf ("data: ".data ++ payload) = true := by
    rw [List.isPrefixOf_iff_prefix]
    exact List.prefix_append _ _
  have hdrop : ("data: ".data ++ payload).drop 6 = payload := by
    have h6 : ("data: ".data).length = 6 := rfl
    rw [← h6]
    exact List.drop_left _ _
  simp only [stream_lines, hpre, if_true, hdrop]

/-! ## Claim C2: streaming aggregation -/

/-- C2.  The stream loop ignores lines not prefixed with `data: `;
the `[DONE]` sentinel terminates consumption successfully with the
accumulator as it stands; a well-formed chunk's contribution is the
first choice's delta `content` value when present and truthy, or else
its `reasoning` value; non-empty string contributions are appended in
stream order and the final success value is their exact concatenation
with no added separators; and the literal chunk sequence with deltas
`Hel`, `lo`, `[DONE]` aggregates to exactly `Hello`. -/
theorem stream_aggregation :
    (∀ (acc : List Json) (l : List Char) (rest : List (List Char)),
      "data: ".data.isPrefixOf l = false →
      stream_lines acc (l :: rest) = stream_lines acc rest) ∧
    (∀ (acc : List Json) (rest : List (List Char)),
      stream_lines acc ("data: [DONE]".data :: rest) = some acc) ∧
    (∀ (df : List (String × Json)) (v : Json),
      objGet df "content" = some v → truthy v = true →
      delta_field df = some v) ∧
    (∀ df : List (String × Json),
      objGet df "content" = none → delta_field df = objGet df "reasoning") ∧
    (∀ (acc : List Json) (payload : List Char) (rest : List (List Char))
      (chunk : Json) (s : String),
      json_loads payload = some chunk →
      extract_delta chunk = .value (some (.str s)) → s ≠ "" →
      stream_lines acc (("data: ".data ++ payload) :: rest) =
        stream_lines (acc ++ [.str s]) rest) ∧
    (∀ ss : List String,
      join_response (ss.map Json.str) = some (joinSep "" ss)) ∧
    aggregate_stream
      ["data: \x7b\"choices\":[\x7b\"delta\":\x7b\"content\":\"Hel\"\x7d\x7d]\x7d",
       "data: \x7b\"choices\":[\x7b\"delta\":\x7b\"content\":\"lo\"\x7d\x7d]\x7d",
       "data: [DONE]"] = some "Hello" := by
  refine ⟨fun acc l rest h => ?_, fun acc rest => rfl,
    fun df v h ht => ?_, fun df h => ?_,
    fun acc payload rest chunk s hjson hext hs => ?_, fun ss => ?_, ?_⟩
  · simp only [stream_lines, h, Bool.false_eq_true, if_false]
  · unfold delta_field
    rw [h]
    show (if truthy v = true then some v else objGet df "reasoning") = some v
    rw [if_pos ht]
  · unfold delta_field
    rw [h]
  · have hne : payload ≠ "[DONE]".data := by
      intro he
      rw [he] at hjson
      rw [show json_loads "[DONE]".data = none from rfl] at hjson
      exact Option.noConfusion hjson
    rw [stream_step_data, if_neg hne]
    simp only [hjson, hext, truthy]
    simp [hs]
  · induction ss with
    | nil => rfl
    | cons s rest ih =>
      cases rest with
      | nil => simp [join_response, joinSep]
      | cons x xs =>
        simp only [List.map_cons, join_response, joinSep] at ih ⊢
        rw [ih]
        simp [joinSep]
  · rfl

set_option maxRecDepth 100000 in
/-- C2, witness: the first `Hel` chunk line appends exactly the string
`Hel` to an empty accumulator, and the three literal lines aggregate to
`Hello`. -/
theorem stream_aggregation_witness :
    stream_lines []
        (("data: ".data ++
          "\x7b\"choices\":[\x7b\"delta\":\x7b\"content\":\"Hel\"\x7d\x7d]\x7d".data) ::
          []) =
      stream_lines ([] ++ [Json.str "Hel"]) [] ∧
    aggregate_stream
      ["data: \x7b\"choices\":[\x7b\"delta\":\x7b\"content\":\"Hel\"\x7d\x7d]\x7d",
       "data: \x7b\"choices\":[\x7b\"delta\":\x7b\"content\":\"lo\"\x7d\x7d]\x7d",
       "data: [DONE]"] = some "Hello" :=
  ⟨stream_aggregation.2.2.2.2.1 []
      "\x7b\"choices\":[\x7b\"delta\":\x7b\"content\":\"Hel\"\x7d\x7d]\x7d".data
      [] (.obj [("choices", .arr [.obj [("delta",
        .obj [("content", .str "Hel")])]])]) "Hel"
      (by rfl) (by rfl) (by decide),
    stream_aggregation.2.2.2.2.2.2⟩

/-! ## Claim C3: the auto-mode fallback walk -/

/-- C3.  Candidates are probed strictly in order, one request each: the
first candidate whose request succeeds with non-empty content
short-circuits the walk (no later candidate is probed) and its result
is returned tagged with the auto-selected alias label; a failed
candidate's error replaces the running last error and the walk
continues; and when every candidate fails, the loop returns the failure
text carrying the last candidate's error.  In auto mode (no model
selector) `chat_completion` returns exactly the outcome of this walk
over the auto-mode candidates. -/
theorem chat_auto_fallback (req : Nat → Option String × Option String)
    (cands : List (String × String)) (i : Nat) (le : Option String) :
    (∀ k lbl mid c, (∀ j, j < k → (req (i + j)).1 = none) →
      (req (i + k)).1 = some c → c ≠ "" → cands[k]? = some (lbl, mid) →
      auto_loop req i le cands = "[Auto-selected: " ++ lbl ++ "]\n" ++ c ∧
      auto_probes req i cands = (cands.take (k + 1)).map Prod.snd) ∧
    (∀ cand rest, cands = cand :: rest → (req i).1 = none →
      auto_loop req i le cands = auto_loop req (i + 1) (req i).2 rest ∧
      auto_probes req i cands = cand.2 :: auto_probes req (i + 1) rest) ∧
    ((∀ j, j < cands.length → (req (i + j)).1 = none) →
      auto_probes req i cands = cands.map Prod.snd ∧
      (cands ≠ [] →
        auto_loop req i le cands =
          "All auto-models failed. Last error: " ++
            pyStr ((req (i + cands.length - 1)).2))) ∧
    (∀ (parse : String → Option ParsedUrl) (aliases : List (String × String))
      (dflt prompt : String), prompt ≠ "" →
      chat_completion true aliases dflt parse req none prompt none =
        ⟨some (auto_loop req 0 (some "No models available or all failed.")
            (get_candidates_for_auto_mode aliases dflt false)),
          auto_probes req 0
            (get_candidates_for_auto_mode aliases dflt false)⟩) := by
  refine ⟨fun k lbl mid c hfail hsucc _ hk => ?_,
    fun cand rest hcands h0 => ?_, auto_all_fail req cands i le,
    fun parse aliases dflt prompt hp => ?_⟩
  · exact auto_success_at req cands k i le c hfail hsucc (lbl, mid) hk
  · subst hcands
    exact auto_step_fail req i le cand rest h0
  · unfold chat_completion
    rw [if_neg (by simp), if_neg (by simp [pyTruthy, hp]),
      if_neg (by simp [pyTruthy, validate_image_url]), if_neg (by simp [pyTruthy])]
    rfl

/-- C3, witness: with a concrete oracle failing the first request and
succeeding on the second with `hello`, the walk over two candidates
returns the result tagged with the second alias and probes exactly the
two model ids in order. -/
theorem chat_auto_fallback_witness :
    auto_loop
        (fun i => if i = 0 then (none, some "API Error 500.")
          else (some "hello", none)) 0
        (some "No models available or all failed.")
        [("llama-free", "L"), ("deepseek-free", "D")] =
      "[Auto-selected: deepseek-free]\nhello" ∧
    auto_probes
        (fun i => if i = 0 then (none, some "API Error 500.")
          else (some "hello", none)) 0
        [("llama-free", "L"), ("deepseek-free", "D")] = ["L", "D"] :=
  (chat_auto_fallback
      (fun i => if i = 0 then (none, some "API Error 500.")
        else (some "hello", none))
      [("llama-free", "L"), ("deepseek-free", "D")] 0
      (some "No models available or all failed.")).1 1 "deepseek-free" "D"
    "hello"
    (fun j hj => by
      have hj0 : j = 0 := by omega
      subst hj0
      decide)
    (by decide) (by decide) (by decide)

/-! ## Claim C4: the auto-mode candidate list -/

/-- C4.  The auto-mode candidate list is the fixed priority list of
alias labels, with the vision label `gemini` inserted at the front when
an image is present and it is not already listed (it never is),
restricted to the labels present in the alias table and paired with
their mapped ids, with the `default` candidate always appended last;
hence with an image present and `gemini` configured, the first
candidate is `gemini` with its resolved id. -/
theorem get_candidates_characterization (aliases : List (String × String))
    (dflt : String) (ip : Bool) :
    "gemini" ∉ AUTO_MODEL_PRIORITY ∧
    get_candidates_for_auto_mode aliases dflt ip =
      ((if ip then "gemini" :: AUTO_MODEL_PRIORITY else AUTO_MODEL_PRIORITY).filterMap
        fun a => (aliases.lookup a).map fun m => (a, m)) ++ [("default", dflt)] ∧
    (get_candidates_for_auto_mode aliases dflt ip).getLast? =
      some ("default", dflt) ∧
    (∀ v, ip = true → aliases.lookup "gemini" = some v →
      (get_candidates_for_auto_mode aliases dflt ip).head? =
        some ("gemini", v)) := by
  refine ⟨by decide, ?_, ?_, ?_⟩
  · unfold get_candidates_for_auto_mode
    cases ip <;> simp [AUTO_MODEL_PRIORITY]
  · unfold get_candidates_for_auto_mode
    exact List.getLast?_concat _
  · intro v hip hv
    subst hip
    unfold get_candidates_for_auto_mode
    simp [AUTO_MODEL_PRIORITY, hv]

/-- C4, witness: on the test alias table with an image present, the
first candidate is `gemini` paired with its mapped vision model id, and
the last candidate is the default. -/
theorem get_candidates_characterization_witness :
    (get_candidates_for_auto_mode
      [("llama-free", "meta-llama/llama-3-8b:free"),
       ("deepseek-free", "deepseek/deepseek-coder-v2-lite"),
       ("gemini", "google/gemini-pro-vision")] "test/default-model"
      true).head? = some ("gemini", "google/gemini-pro-vision") ∧
    (get_candidates_for_auto_mode
      [("llama-free", "meta-llama/llama-3-8b:free"),
       ("deepseek-free", "deepseek/deepseek-coder-v2-lite"),
       ("gemini", "google/gemini-pro-vision")] "test/default-model"
      true).getLast? = some ("default", "test/default-model") :=
  ⟨(get_candidates_characterization
      [("llama-free", "meta-llama/llama-3-8b:free"),
       ("deepseek-free", "deepseek/deepseek-coder-v2-lite"),
       ("gemini", "google/gemini-pro-vision")] "test/default-model"
      true).2.2.2 "google/gemini-pro-vision" rfl (by decide),
    (get_candidates_characterization
      [("llama-free", "meta-llama/llama-3-8b:free"),
       ("deepseek-free", "deepseek/deepseek-coder-v2-lite"),
       ("gemini", "google/gemini-pro-vision")] "test/default-model"
      true).2.2.1⟩

/-! ## Claim C9: validation before any request -/

/-- C9.  `chat_completion` validates before any network activity: with
an empty prompt and no image (or an empty-string image url) it returns
the empty-prompt validation error having issued no request; and with an
image url whose parse fails, or whose scheme is not `http`/`https`, or
whose host is `localhost`, `127.0.0.1` or starts with `192.168.`, it
returns the image-url validation error having issued no request. -/
theorem chat_completion_validates_first (aliases : List (String × String))
    (dflt : String) (parse : String → Option ParsedUrl)
    (req : Nat → Option String × Option String) (model : Option String)
    (prompt : String) (image_url : Option String) :
    (prompt = "" → (image_url = none ∨ image_url = some "") →
      chat_completion true aliases dflt parse req model prompt image_url =
        ⟨some "Error: Prompt cannot be empty without an image.", []⟩) ∧
    (∀ u, image_url = some u → u ≠ "" →
      (∀ p, parse u = some p →
        (p.scheme ≠ "http" ∧ p.scheme ≠ "https") ∨
        p.hostname = some "localhost" ∨ p.hostname = some "127.0.0.1" ∨
        (∃ host, p.hostname = some host ∧
          "192.168.".data.isPrefixOf host.data = true)) →
      chat_completion true aliases dflt parse req model prompt image_url =
        ⟨some "Error: Invalid or disallowed image URL.", []⟩) := by
  constructor
  · intro hp himg
    subst hp
    rcases himg with h | h <;> subst h <;> rfl
  · intro u hu hne hbad
    subst hu
    have hval : validate_image_url parse (some u) = false := by
      show (if u = "" then false
        else match parse u with
        | none => false
        | some p =>
          if p.scheme ≠ "http" ∧ p.scheme ≠ "https" then false
          else if p.hostname = some "localhost" ∨ p.hostname = some "127.0.0.1"
            then false
          else match p.hostname with
            | some host => !("192.168.".data.isPrefixOf host.data)
            | none => true) = false
      rw [if_neg hne]
      cases hp : parse u with
      | none => rfl
      | some p =>
        show (if p.scheme ≠ "http" ∧ p.scheme ≠ "https" then false
          else if p.hostname = some "localhost" ∨ p.hostname = some "127.0.0.1"
            then false
          else match p.hostname with
            | some host => !("192.168.".data.isPrefixOf host.data)
            | none => true) = false
        by_cases hsch : p.scheme ≠ "http" ∧ p.scheme ≠ "https"
        · rw [if_pos hsch]
        · rw [if_neg hsch]
          rcases hbad p hp with hs | hh | hh | ⟨host, hh, hpre⟩
          · exact absurd hs hsch
          · rw [if_pos (Or.inl hh)]
          · rw [if_pos (Or.inr hh)]
          · by_cases hlh : p.hostname = some "localhost" ∨
                p.hostname = some "127.0.0.1"
            · rw [if_pos hlh]
            · rw [if_neg hlh, hh]
              simp [hpre]
    unfold chat_completion
    rw [if_neg (by simp), if_neg (by simp [pyTruthy, hne]),
      if_pos ⟨by simp [pyTruthy, hne], hval⟩]

/-- C9, witness: an empty prompt with no image yields the empty-prompt
error with no probes, and a loopback image url yields the image-url
error with no probes. -/
theorem chat_completion_validates_first_witness :
    chat_completion true [] "d"
        (fun s => if s = "http://127.0.0.1/x"
          then some ⟨"http", some "127.0.0.1"⟩ else none)
        (fun _ => (none, none)) none "" none =
      ⟨some "Error: Prompt cannot be empty without an image.", []⟩ ∧
    chat_completion true [] "d"
        (fun s => if s = "http://127.0.0.1/x"
          then some ⟨"http", some "127.0.0.1"⟩ else none)
        (fun _ => (none, none)) none "hi" (some "http://127.0.0.1/x") =
      ⟨some "Error: Invalid or disallowed image URL.", []⟩ :=
  ⟨(chat_completion_validates_first [] "d"
      (fun s => if s = "http://127.0.0.1/x"
        then some ⟨"http", some "127.0.0.1"⟩ else none)
      (fun _ => (none, none)) none "" none).1 rfl (Or.inl rfl),
    (chat_completion_validates_first [] "d"
      (fun s => if s = "http://127.0.0.1/x"
        then some ⟨"http", some "127.0.0.1"⟩ else none)
      (fun _ => (none, none)) none "hi" (some "http://127.0.0.1/x")).2
      "http://127.0.0.1/x" rfl (by decide)
      (by
        intro p hp
        rw [if_pos rfl] at hp
        cases hp
        right
        right
        left
        rfl)⟩

/-! ## Claim C10: image generation -/

/-- C10.  For a non-empty prompt, `generate_image` returns exactly the
Markdown string built from the fixed alt text `Generated Image` and the
Pollinations URL, the URL embedding the percent-encoded prompt and each
dimension independently clamped into the interval 128 to 2048; an empty
prompt returns the validation error string and nothing else. -/
theorem generate_image_markdown (p : String) (w h : Int) :
    (p ≠ "" →
      generate_image p w h =
        "![Generated Image](" ++
          ("https://image.pollinations.ai/prompt/" ++ urlquote p ++
            "?width=" ++ toString (clampDim w) ++
            "&height=" ++ toString (clampDim h) ++ "&nologo=true") ++
        ")\n\n(URL: " ++
          ("https://image.pollinations.ai/prompt/" ++ urlquote p ++
            "?width=" ++ toString (clampDim w) ++
            "&height=" ++ toString (clampDim h) ++ "&nologo=true") ++ ")") ∧
    (128 ≤ clampDim w ∧ clampDim w ≤ 2048) ∧
    (128 ≤ clampDim h ∧ clampDim h ≤ 2048) ∧
    (128 ≤ w → w ≤ 2048 → clampDim w = w) ∧
    (p = "" → generate_image p w h = "Error: Prompt cannot be empty.") := by
  refine ⟨fun hp => ?_, ⟨?_, ?_⟩, ⟨?_, ?_⟩, fun h1 h2 => ?_, fun hp => ?_⟩
  · simp [generate_image, pollinationsUrl, hp]
  · simp only [clampDim]; omega
  · simp only [clampDim]; omega
  · simp only [clampDim]; omega
  · simp only [clampDim]; omega
  · simp only [clampDim]; omega
  · simp [generate_image, hp]

set_option maxRecDepth 100000 in
/-- C10, witness: the prompt `a cat`, width 50 and height 5000 produce the
exact Markdown string with the space percent-encoded and both dimensions
clamped. -/
theorem generate_image_markdown_witness :
    generate_image "a cat" 50 5000 =
      "![Generated Image](https://image.pollinations.ai/prompt/a%20cat?width=128&height=2048&nologo=true)\n\n(URL: https://image.pollinations.ai/prompt/a%20cat?width=128&height=2048&nologo=true)" :=
  ((generate_image_markdown "a cat" 50 5000).1 (by decide)).trans (by decide)

end OpenRouterMCP
